import Mathlib

/-!
Verification of the filter/query-building, facet, and ingest logic of
`src/app.py` (a Flask data service over a fixed `insights` table).

The shallow embedding below translates the relevant parts of `app.py`:

* `get_dashboard_data` (the `GET /api/data` handler, lines 229-304):
  dynamic predicate construction from request parameters, execution of
  the resulting parameterized query, the seven facet (`DISTINCT`)
  queries, and the error paths.
* `insert_data` (the `POST /api/insert` handler, lines 306-350):
  body validation and bulk insertion.

Modelling choices, all stated where they matter:

* A request's query string is modelled by `Args`, giving Flask's
  `request.args.getlist` (list of values per key, `[]` when absent);
  `request.args.get` returns the first value, derived from `getlist`.
* The database table is a `List Record`; a store that is unreachable
  (connection failure) is `none : Option (List Record)`.
* SQL semantics of the built predicate: `col = ANY(vals)` selects a row
  iff the column is non-NULL and its value is a member of `vals`
  (in SQL three-valued logic a NULL comparison never selects the row);
  `intensity >= n` / `<= n` likewise require a non-NULL `intensity`.
* The `added`/`published` timestamp columns (and `parse_date`) are not
  modelled: no claim mentions them, and every modelled behaviour is
  independent of them.
* JSON values in ingest items are modelled as string-or-null
  (a numeric JSON value is represented by its decimal string, which
  `parse_int` accepts just as Python's `int` does).
* Python's `int` on a one-character string accepts exactly the digit
  characters; we model the ASCII digits `0`-`9` (`Char.isDigit`).
-/

/-- One row of the `insights` table (`CREATE TABLE` in `init_db`,
`app.py` lines 121-142).  Every column is nullable (`Option`);
the serial `id` and the unmodelled timestamp columns are omitted. -/
structure Record where
  end_year : Option String := none
  intensity : Option Int := none
  sector : Option String := none
  topic : Option String := none
  insight : Option String := none
  url : Option String := none
  region : Option String := none
  start_year : Option String := none
  impact : Option String := none
  country : Option String := none
  relevance : Option Int := none
  pestle : Option String := none
  source : Option String := none
  title : Option String := none
  likelihood : Option Int := none
deriving DecidableEq

/-- The projection produced by the `SELECT` of `get_dashboard_data`
(lines 235-240): `intensity, likelihood, relevance, end_year AS year,
country, topic, region, sector, pestle, source`. -/
structure DataRow where
  intensity : Option Int
  likelihood : Option Int
  relevance : Option Int
  year : Option String
  country : Option String
  topic : Option String
  region : Option String
  sector : Option String
  pestle : Option String
  source : Option String
deriving DecidableEq

/-- `end_year AS year` projection of a stored row. -/
def Record.toDataRow (r : Record) : DataRow :=
  { intensity := r.intensity
  , likelihood := r.likelihood
  , relevance := r.relevance
  , year := r.end_year
  , country := r.country
  , topic := r.topic
  , region := r.region
  , sector := r.sector
  , pestle := r.pestle
  , source := r.source }

/-- The request's query parameters.  `getlist k` is Flask's
`request.args.getlist(k)`: the list of values supplied for key `k`,
`[]` when the key is absent. -/
structure Args where
  getlist : String → List String

/-- Flask's `request.args.get(k)`: the first supplied value, or `none`. -/
def Args.get (a : Args) (k : String) : Option String :=
  (a.getlist k).head?

/-- One `AND ...` clause appended to the query text by the loop at
lines 255-268, together with the bound parameter it appends to `params`:
`anyOf col vals` is `AND col = ANY(%s)` with `vals` bound as one
parameter; `geInt n` / `leInt n` are `AND intensity >= %s` /
`AND intensity <= %s` with `n` bound. -/
inductive Clause where
  | anyOf (col : String) (vals : List String)
  | geInt (n : Int)
  | leInt (n : Int)
deriving DecidableEq

/-- The SQL text a clause contributes to the query string. -/
def Clause.render : Clause → String
  | .anyOf col _ => " AND " ++ col ++ " = ANY(%s)"
  | .geInt _ => " AND intensity >= %s"
  | .leInt _ => " AND intensity <= %s"

/-- The column name interpolated into the clause's SQL text. -/
def Clause.columnName : Clause → String
  | .anyOf col _ => col
  | .geInt _ => "intensity"
  | .leInt _ => "intensity"

/-- The categorical filter keys of the `filters` dict (lines 244-251),
in dict insertion order, paired with the schema column they are mapped
to by the `db_key` reassignments at lines 265-266
(`topics` becomes `topic`, `regions` becomes `region`). -/
def catKeys : List (String × String) :=
  [("end_year", "end_year"), ("topics", "topic"), ("sector", "sector"),
   ("regions", "region"), ("pestle", "pestle"), ("source", "source"),
   ("country", "country")]

/-- The gate `if values and values[0]:` (line 256) applied to a list of
strings: the list is non-empty and its first element is a non-empty
string. -/
def gateOpen : List String → Bool
  | [] => false
  | v :: _ => v ≠ ""

/-- The clause the loop appends for one categorical key: when the gate
opens, `AND db_key = ANY(%s)` with the non-empty values
(`[v for v in values if v]`, line 268) bound as one parameter. -/
def catClause (args : Args) (k dbk : String) : Option Clause :=
  if gateOpen (args.getlist k) then
    some (.anyOf dbk ((args.getlist k).filter (fun v => v ≠ "")))
  else none

/-- All categorical clauses, in loop order. -/
def catClauses (args : Args) : List Clause :=
  catKeys.filterMap fun p => catClause args p.1 p.2

/-- Python's `int` applied to the one-character string `values[0]`
(line 259): succeeds exactly on a digit character. -/
def pyIntChar (c : Char) : Option Int :=
  if c.isDigit then some ((c.toNat - 48 : Nat) : Int) else none

/-- Outcome of processing `intensity_min` / `intensity_max`. -/
inductive IntArg where
  | ok (n : Option Int)
  | invalid
deriving DecidableEq

/-- Processing of an intensity bound (lines 257-263).  `filters[key]`
here is `request.args.get(key)` — a single *string*, not a list — so
the gate `values and values[0]` tests that the string is non-empty and
`int(values[0])` parses only its FIRST CHARACTER. -/
def intensityArg (args : Args) (key : String) : IntArg :=
  match args.get key with
  | none => .ok none
  | some s =>
    match s.data with
    | [] => .ok none
    | c :: _ =>
      match pyIntChar c with
      | some n => .ok (some n)
      | none => .invalid

/-- Result of the predicate-building loop (lines 255-268): either the
clause list in append order, or an early `400` return naming the
offending intensity key. -/
inductive BuildResult where
  | ok (clauses : List Clause)
  | invalid (key : String)
deriving DecidableEq

/-- The whole loop at lines 255-268: the seven categorical keys are
processed first (dict order), then `intensity_min`, then
`intensity_max`; an unparsable intensity value returns `400` at once. -/
def buildFilters (args : Args) : BuildResult :=
  match intensityArg args "intensity_min" with
  | .invalid => .invalid "intensity_min"
  | .ok mn =>
    match intensityArg args "intensity_max" with
    | .invalid => .invalid "intensity_max"
    | .ok mx =>
      .ok (catClauses args ++ (mn.map Clause.geInt).toList ++ (mx.map Clause.leInt).toList)

/-- The columns the builder may interpolate into the query text:
the fixed schema columns (spec's allow-list). -/
def allowedColumns : List String :=
  ["end_year", "topic", "sector", "region", "pestle", "source",
   "country", "intensity"]

/-- The query-parameter names `get_dashboard_data` reads (the keys of
its `filters` dict, lines 244-253). -/
def requestKeys : List String :=
  ["end_year", "topics", "sector", "regions", "pestle", "source",
   "country", "intensity_min", "intensity_max"]

/-- Base query text (lines 235-242). -/
def baseQuery : String :=
  "SELECT intensity, likelihood, relevance, end_year AS year, country, topic, region, sector, pestle, source FROM insights WHERE 1=1"

/-- The full query text the handler executes. -/
def renderQuery (clauses : List Clause) : String :=
  baseQuery ++ String.join (clauses.map Clause.render)

/-- Lookup of a categorical schema column in a row (used to give the
built clauses their SQL meaning). -/
def colVal (r : Record) : String → Option String
  | "end_year" => r.end_year
  | "topic" => r.topic
  | "sector" => r.sector
  | "region" => r.region
  | "pestle" => r.pestle
  | "source" => r.source
  | "country" => r.country
  | _ => none

/-- SQL semantics of one clause on one row.  `col = ANY(vals)` holds
iff the column is non-NULL and its value is in `vals`; a NULL column
never satisfies a comparison. -/
def Clause.matches : Clause → Record → Bool
  | .anyOf col vals, r =>
    match colVal r col with
    | some v => decide (v ∈ vals)
    | none => false
  | .geInt n, r =>
    match r.intensity with
    | some i => decide (n ≤ i)
    | none => false
  | .leInt n, r =>
    match r.intensity with
    | some i => decide (i ≤ n)
    | none => false

/-- Executing the built query against the table: the rows satisfying
every clause (the `WHERE 1=1 AND ...` conjunction).  The query has no
`LIMIT`, so every matching row is returned. -/
def runQuery (clauses : List Clause) (table : List Record) : List Record :=
  table.filter fun r => clauses.all fun c => c.matches r

/-- One facet list (lines 276-282): `SELECT DISTINCT col FROM insights
WHERE col IS NOT NULL AND col != '' ORDER BY col` — the sorted distinct
non-null non-empty values of the column over the whole table. -/
def facetValues (f : Record → Option String) (table : List Record) : List String :=
  List.insertionSort (· ≤ ·) (((table.filterMap f).filter (fun v => v ≠ "")).dedup)

/-- The `filters` object of the response (lines 275-287): the seven
facet lists, keyed as in `filter_queries`. -/
structure FacetData where
  end_years : List String
  topics : List String
  sectors : List String
  regions : List String
  pestles : List String
  sources : List String
  countries : List String
deriving DecidableEq

/-- All seven facet queries, over the whole (unfiltered) table. -/
def facetsOf (table : List Record) : FacetData :=
  { end_years := facetValues Record.end_year table
  , topics := facetValues Record.topic table
  , sectors := facetValues Record.sector table
  , regions := facetValues Record.region table
  , pestles := facetValues Record.pestle table
  , sources := facetValues Record.source table
  , countries := facetValues Record.country table }

/-- Observable outcome of `GET /api/data`: `ok` is the `200` JSON body
(`data` plus `filters`), `badRequest` the `400` validation return,
`serverError` the `500` path (database failure). -/
inductive DataResponse where
  | ok (data : List DataRow) (filters : FacetData)
  | badRequest (msg : String)
  | serverError (msg : String)
deriving DecidableEq

/-- `get_dashboard_data` (lines 229-304).  A connection failure makes
`get_db_connection` raise, which the handler's `except Exception`
turns into a `500` response (there is no fallback dataset in the
code).  Otherwise the predicate loop runs; an invalid intensity value
returns `400 Invalid <key> value`; otherwise the built query runs and
the facet queries are evaluated over the whole table. -/
def get_dashboard_data (store : Option (List Record)) (args : Args) : DataResponse :=
  match store with
  | none => .serverError "Database connection failed"
  | some table =>
    match buildFilters args with
    | .invalid key => .badRequest ("Invalid " ++ key ++ " value")
    | .ok clauses =>
      .ok ((runQuery clauses table).map Record.toDataRow) (facetsOf table)

/-- One item of the ingest body: a JSON object, modelled as an
association list from key to string-or-null value. -/
def Item : Type := List (String × Option String)

instance : DecidableEq Item := by
  unfold Item
  infer_instance

/-- Python's `key in item`. -/
def hasKey (it : Item) (k : String) : Bool :=
  (it.lookup k).isSome

/-- Python's `item.get(key)` flattened: `none` for an absent key or a
JSON null value. -/
def Item.getVal (it : Item) (k : String) : Option String :=
  match it.lookup k with
  | some (some s) => some s
  | _ => none

/-- `parse_int` (lines 94-101): `None`/empty give `None`; otherwise
Python's `int`, with failures logged and mapped to `None`. -/
def parse_int (v : Option String) : Option Int :=
  match v with
  | none => none
  | some s => if s = "" then none else s.toInt?

/-- The tuple built for one ingest item (lines 322-330): each schema
column from `item.get`, integers through `parse_int`. -/
def itemToRecord (it : Item) : Record :=
  { end_year := it.getVal "end_year"
  , intensity := parse_int (it.getVal "intensity")
  , sector := it.getVal "sector"
  , topic := it.getVal "topic"
  , insight := it.getVal "insight"
  , url := it.getVal "url"
  , region := it.getVal "region"
  , start_year := it.getVal "start_year"
  , impact := it.getVal "impact"
  , country := it.getVal "country"
  , relevance := parse_int (it.getVal "relevance")
  , pestle := it.getVal "pestle"
  , source := it.getVal "source"
  , title := it.getVal "title"
  , likelihood := parse_int (it.getVal "likelihood") }

/-- Observable outcome of `POST /api/insert`. -/
inductive InsertResponse where
  | badRequest (msg : String)
  | created (count : Nat)
  | serverError (msg : String)
deriving DecidableEq

/-- `insert_data` (lines 306-350).  The body is `none` when
`request.get_json()` yields nothing (`if not data`, which also catches
an empty array).  Validation of every item's `end_year`/`topic` keys
(lines 315-318) runs BEFORE `get_db_connection()` is called at line
320, so a failed validation returns `400` with the store untouched,
whatever its state.  There is no batch-size check: a valid batch of
any length is inserted in full and the count returned.  The second
component is the store after the request. -/
def insert_data (store : Option (List Record)) (body : Option (List Item)) :
    InsertResponse × Option (List Record) :=
  match body with
  | none => (.badRequest "No JSON data provided", store)
  | some items =>
    if items.isEmpty then (.badRequest "No JSON data provided", store)
    else if !(items.all fun it => hasKey it "end_year" && hasKey it "topic") then
      (.badRequest "Missing required fields: end_year, topic", store)
    else
      match store with
      | none => (.serverError "Database connection failed", none)
      | some table => (.created items.length, some (table ++ items.map itemToRecord))

/-! Concrete example inputs used by counterexamples and witnesses. -/

/-- A request with no query parameters. -/
def noArgs : Args := ⟨fun _ => []⟩

/-- The request `?topics=&topics=X`: first value empty, second not. -/
def argsEmptyFirst : Args := ⟨fun k => if k = "topics" then ["", "X"] else []⟩

/-- The request `?topics=X&topics=`: same values, other order. -/
def argsFirstNonempty : Args := ⟨fun k => if k = "topics" then ["X", ""] else []⟩

/-- The request `?topics=X&topics=&topics=Y`. -/
def argsXY : Args := ⟨fun k => if k = "topics" then ["X", "", "Y"] else []⟩

/-- The request `?topics=Y&topics=X&topics=X`: the same non-empty value
set as `argsXY`, in another order and with a duplicate. -/
def argsYXX : Args := ⟨fun k => if k = "topics" then ["Y", "X", "X"] else []⟩

/-- The request `?intensity_min=5x`. -/
def argsMin5x : Args := ⟨fun k => if k = "intensity_min" then ["5x"] else []⟩

/-- The request `?intensity_min=12&intensity_max=5`. -/
def argsMin12Max5 : Args :=
  ⟨fun k => if k = "intensity_min" then ["12"]
            else if k = "intensity_max" then ["5"] else []⟩

/-- A stored row whose topic is `Y` (all other columns NULL). -/
def recY : Record := { topic := some "Y" }

/-- A stored row whose intensity is `3` (all other columns NULL). -/
def recI3 : Record := { intensity := some 3 }

/-- A valid ingest item carrying both required keys. -/
def exItem : Item := [("end_year", some "2025"), ("topic", some "Oil")]

/-- An ingest item lacking the `end_year` key. -/
def badItem : Item := [("topic", some "Oil")]

/-- A batch of 101 valid items. -/
def batch101 : List Item := List.replicate 101 exItem

/-- A table with 1001 rows. -/
def bigTable : List Record := List.replicate 1001 recI3

/-- Claim C1, counterexample: for the request `?topics=&topics=X` the
topics parameter list contains the non-empty value `X`, yet the
builder adds no predicate clause — the gate `if values and values[0]`
looks only at the first value, so the claim's "if and only if at least
one non-empty value was supplied" fails. -/
theorem C1_counterexample :
    (argsEmptyFirst.getlist "topics").any (fun v => v ≠ "") = true ∧
    buildFilters argsEmptyFirst = BuildResult.ok [] := by decide

/-- Claim C4, code evaluation at the failing input: `intensity_min=5x`
does not parse as an integer, but the handler accepts the request —
`int(values[0])` parses only the first character `5` — and runs the
query with the bound `intensity >= 5` instead of returning `400`. -/
theorem C4_code_accepts_5x :
    buildFilters argsMin5x = BuildResult.ok [Clause.geInt 5] ∧
    get_dashboard_data (some [recI3]) argsMin5x =
      DataResponse.ok [] (facetsOf [recI3]) := by decide

/-- Claim C5, code evaluation at the failing input: with
`intensity_min=12` and `intensity_max=5` (valid integers, min > max)
the handler builds `intensity >= 1 AND intensity <= 5` — only the
first character of `12` is parsed — and a row with intensity `3` is
returned, so the result set is neither `intensity >= 12` nor empty. -/
theorem C5_code_first_char :
    buildFilters argsMin12Max5 = BuildResult.ok [Clause.geInt 1, Clause.leInt 5] ∧
    get_dashboard_data (some [recI3]) argsMin12Max5 =
      DataResponse.ok [recI3.toDataRow] (facetsOf [recI3]) := by decide

/-- Claim C9, counterexample: with the store unreachable, the handler
returns the `500` database-error response, not a fallback dataset with
a non-error status — no `ok` response is produced. -/
theorem C9_counterexample :
    get_dashboard_data none noArgs = DataResponse.serverError "Database connection failed" ∧
    ¬ ∃ rows fd, get_dashboard_data none noArgs = DataResponse.ok rows fd := by
  refine ⟨rfl, ?_⟩
  rintro ⟨rows, fd, h⟩
  simp [get_dashboard_data] at h

/-- Claim C9 amended: whenever the store is unreachable, the `GET`
data endpoint fails the request with a `500` database-error response
for every set of request parameters; the code has no in-memory
fallback dataset. -/
theorem C9_unreachable_is_500 (args : Args) :
    get_dashboard_data none args = DataResponse.serverError "Database connection failed" := rfl

/-- Claim C3, counterexample: the lists `["", "X"]` and `["X", ""]`
for `topics` are permutations of each other (same underlying set), but
one adds a membership clause and the other adds none, so the two
requests select different rows from the same table. -/
theorem C3_counterexample :
    argsEmptyFirst.getlist "topics" = ["", "X"] ∧
    argsFirstNonempty.getlist "topics" = ["X", ""] ∧
    List.Perm (argsEmptyFirst.getlist "topics") (argsFirstNonempty.getlist "topics") ∧
    get_dashboard_data (some [recY]) argsEmptyFirst ≠
      get_dashboard_data (some [recY]) argsFirstNonempty := by decide

/-- Claim C8, counterexample: a batch of 101 valid items is not
rejected — the handler has no batch-size check — and all 101 rows are
committed to the store. -/
theorem C8_counterexample :
    batch101.length = 101 ∧
    insert_data (some []) (some batch101) =
      (InsertResponse.created 101, some (batch101.map itemToRecord)) := by decide

/-- Claim C6, counterexample: an unfiltered request against a table of
1001 rows returns all 1001 rows in the `data` field — the query has no
`LIMIT`, so nothing caps the response at 1000. -/
theorem C6_counterexample :
    ∃ rows fd, get_dashboard_data (some bigTable) noArgs = DataResponse.ok rows fd ∧
      rows.length = 1001 ∧ 1000 < rows.length := by
  have hlen : (bigTable.map Record.toDataRow).length = 1001 := by
    simp only [bigTable, List.map_replicate, List.length_replicate]
  refine ⟨bigTable.map Record.toDataRow, facetsOf bigTable, ?_, hlen, by
    rw [hlen]; decide⟩
  have hb : buildFilters noArgs = BuildResult.ok [] := rfl
  simp [get_dashboard_data, hb, runQuery]

/-! Structural lemmas about the predicate builder, shared by several
claims below. -/

/-- The seven db-column names in `catKeys` are pairwise distinct, so a
column determines its request key. -/
theorem catKeys_snd_inj : ∀ p ∈ catKeys, ∀ q ∈ catKeys, p.2 = q.2 → p = q := by decide

/-- Every db column of `catKeys` is in the allow-list. -/
theorem catKeys_snd_allowed : ∀ p ∈ catKeys, p.2 ∈ allowedColumns := by decide

/-- Every request key of `catKeys` is among the nine keys the handler
reads. -/
theorem catKeys_fst_requestKeys : ∀ p ∈ catKeys, p.1 ∈ requestKeys := by decide

/-- Characterization of the clause built for one categorical key. -/
theorem catClause_eq_some (args : Args) (k dbk : String) (c : Clause) :
    catClause args k dbk = some c ↔
      gateOpen (args.getlist k) = true ∧
        c = .anyOf dbk ((args.getlist k).filter (fun v => v ≠ "")) := by
  unfold catClause
  by_cases hg : gateOpen (args.getlist k)
  · simp [hg, eq_comm]
  · simp [hg]

/-- Membership in the categorical clause list. -/
theorem mem_catClauses (args : Args) (c : Clause) :
    c ∈ catClauses args ↔
      ∃ p, p ∈ catKeys ∧ gateOpen (args.getlist p.1) = true ∧
        c = .anyOf p.2 ((args.getlist p.1).filter (fun v => v ≠ "")) := by
  unfold catClauses
  simp only [List.mem_filterMap, catClause_eq_some]

/-- Decomposition of a successful build: the categorical clauses in
loop order, then the optional `intensity >=`, then the optional
`intensity <=`. -/
theorem buildFilters_ok (args : Args) (clauses : List Clause)
    (h : buildFilters args = .ok clauses) :
    ∃ mn mx : Option Int,
      intensityArg args "intensity_min" = .ok mn ∧
      intensityArg args "intensity_max" = .ok mx ∧
      clauses = catClauses args ++ (mn.map Clause.geInt).toList
        ++ (mx.map Clause.leInt).toList := by
  unfold buildFilters at h
  split at h
  · exact absurd h (by simp)
  · rename_i mn hmn
    split at h
    · exact absurd h (by simp)
    · rename_i mx hmx
      exact ⟨mn, mx, hmn, hmx, by cases h; rfl⟩

/-- The builder reads only the nine fixed request keys: two requests
agreeing on them build identically. -/
theorem buildFilters_ext (args args' : Args)
    (h : ∀ k ∈ requestKeys, args'.getlist k = args.getlist k) :
    buildFilters args' = buildFilters args := by
  have hcat : catClauses args' = catClauses args := by
    unfold catClauses
    refine List.filterMap_congr ?_
    intro p hp
    have hgl : args'.getlist p.1 = args.getlist p.1 :=
      h p.1 (catKeys_fst_requestKeys p hp)
    simp only [catClause, hgl]
  have hmn : intensityArg args' "intensity_min" = intensityArg args "intensity_min" := by
    unfold intensityArg Args.get
    rw [h "intensity_min" (by decide)]
  have hmx : intensityArg args' "intensity_max" = intensityArg args "intensity_max" := by
    unfold intensityArg Args.get
    rw [h "intensity_max" (by decide)]
  unfold buildFilters
  rw [hcat, hmn, hmx]

/-- Claim C1 amended: for every request the builder accepts and every
filterable categorical column, a predicate clause for that column is
added if and only if the column's parameter list is non-empty and its
FIRST value is non-empty.  (A later non-empty value after an empty
first value does not add a clause; a list of only empty values adds
none.) -/
theorem C1_clause_iff_first_value (args : Args) (k dbk : String)
    (hk : (k, dbk) ∈ catKeys) (clauses : List Clause)
    (hok : buildFilters args = BuildResult.ok clauses) :
    (∃ vals, Clause.anyOf dbk vals ∈ clauses) ↔
      gateOpen (args.getlist k) = true := by
  rcases buildFilters_ok args clauses hok with ⟨mn, mx, hmn, hmx, rfl⟩
  constructor
  · rintro ⟨vals, hv⟩
    rcases List.mem_append.1 hv with hv | hv
    · rcases List.mem_append.1 hv with hv | hv
      · rcases (mem_catClauses args _).1 hv with ⟨p, hp, hg, heq⟩
        injection heq with h1 h2
        have : p = (k, dbk) := catKeys_snd_inj p hp (k, dbk) hk h1.symm
        rw [this] at hg
        exact hg
      · cases mn <;> simp at hv
    · cases mx <;> simp at hv
  · intro hg
    refine ⟨(args.getlist k).filter (fun v => v ≠ ""), ?_⟩
    refine List.mem_append.2 (Or.inl (List.mem_append.2 (Or.inl ?_)))
    exact (mem_catClauses args _).2 ⟨(k, dbk), hk, hg, rfl⟩

/-- Witness for C1: for the request `?topics=X&topics=&topics=Y` the
builder produces exactly one membership clause on `topic`, and the
iff of the amended claim holds there. -/
theorem C1_witness :
    (∃ vals, Clause.anyOf "topic" vals ∈ [Clause.anyOf "topic" ["X", "Y"]]) ↔
      gateOpen (argsXY.getlist "topics") = true :=
  C1_clause_iff_first_value argsXY "topics" "topic" (by decide)
    [Clause.anyOf "topic" ["X", "Y"]] (by decide)

/-- Claim C2: every column name interpolated into the query text comes
from the fixed allow-list of schema columns, whatever the request
parameters; and the builder reads only its nine fixed parameter names,
so any request agreeing on those nine keys builds the identical
query — a client-chosen parameter name is never interpolated, unknown
parameters are ignored. -/
theorem C2_columns_from_allowlist (args : Args) (clauses : List Clause)
    (hok : buildFilters args = BuildResult.ok clauses) :
    (∀ c ∈ clauses, c.columnName ∈ allowedColumns) ∧
    (∀ args' : Args, (∀ k ∈ requestKeys, args'.getlist k = args.getlist k) →
      buildFilters args' = BuildResult.ok clauses) := by
  constructor
  · intro c hc
    rcases buildFilters_ok args clauses hok with ⟨mn, mx, hmn, hmx, rfl⟩
    rcases List.mem_append.1 hc with hc | hc
    · rcases List.mem_append.1 hc with hc | hc
      · rcases (mem_catClauses args c).1 hc with ⟨p, hp, hg, rfl⟩
        exact catKeys_snd_allowed p hp
      · cases mn with
        | none => simp at hc
        | some n =>
          simp at hc
          subst hc
          show "intensity" ∈ allowedColumns
          decide
    · cases mx with
      | none => simp at hc
      | some n =>
        simp at hc
        subst hc
        show "intensity" ∈ allowedColumns
        decide
  · intro args' h
    rw [buildFilters_ext args args' h, hok]

/-- Witness for C2: the clause built from `?topics=X&topics=&topics=Y`
names the allow-listed column `topic`. -/
theorem C2_witness : (Clause.anyOf "topic" ["X", "Y"]).columnName ∈ allowedColumns :=
  (C2_columns_from_allowlist argsXY [Clause.anyOf "topic" ["X", "Y"]] (by decide)).1
    (Clause.anyOf "topic" ["X", "Y"]) (by decide)

/-- Claim C10: if any item of the batch lacks the `end_year` or the
`topic` key, the whole request is rejected with the `400`
missing-fields error and the store is left exactly as it was — for
EVERY store state, the unreachable one included, because the per-item
validation loop runs before `get_db_connection()` is called. -/
theorem C10_missing_keys_rejected (store : Option (List Record)) (items : List Item)
    (hbad : ∃ it ∈ items, hasKey it "end_year" = false ∨ hasKey it "topic" = false) :
    insert_data store (some items) =
      (InsertResponse.badRequest "Missing required fields: end_year, topic", store) := by
  rcases hbad with ⟨it, hit, hkeys⟩
  have hne : items.isEmpty = false := by
    cases items
    · cases hit
    · rfl
  have hall : (items.all fun i => hasKey i "end_year" && hasKey i "topic") = false := by
    cases hb : items.all fun i => hasKey i "end_year" && hasKey i "topic"
    · rfl
    · have := List.all_eq_true.1 hb it hit
      rcases hkeys with hk | hk <;> simp [hk] at this
  simp [insert_data, hne, hall]

/-- Witness for C10: a one-item batch whose item has a `topic` but no
`end_year` is rejected with the missing-fields error, with the
(unreachable) store untouched. -/
theorem C10_witness :
    insert_data none (some [badItem]) =
      (InsertResponse.badRequest "Missing required fields: end_year, topic", none) :=
  C10_missing_keys_rejected none [badItem] ⟨badItem, by decide, by decide⟩

/-- Claim C8 amended: the ingest endpoint rejects — with zero rows
committed — a missing or empty JSON body and any batch containing an
item without the `end_year` or `topic` key; but it enforces NO maximum
batch size: a valid batch of any length (101 included) is inserted in
full, every row committed, and the item count returned. -/
theorem C8_ingest_behaviour (store : Option (List Record)) (items : List Item)
    (table : List Record) :
    insert_data store none = (InsertResponse.badRequest "No JSON data provided", store) ∧
    insert_data store (some []) = (InsertResponse.badRequest "No JSON data provided", store) ∧
    ((∀ it ∈ items, hasKey it "end_year" = true ∧ hasKey it "topic" = true) → items ≠ [] →
      insert_data (some table) (some items) =
        (InsertResponse.created items.length, some (table ++ items.map itemToRecord))) := by
  refine ⟨rfl, rfl, ?_⟩
  intro hkeys hne
  have hie : items.isEmpty = false := by
    cases items
    · exact absurd rfl hne
    · rfl
  have hall : (items.all fun i => hasKey i "end_year" && hasKey i "topic") = true := by
    refine List.all_eq_true.2 ?_
    intro it hit
    rcases hkeys it hit with ⟨h1, h2⟩
    simp [h1, h2]
  simp [insert_data, hie, hall]

/-- Witness for C8: the 101-item batch of valid items is inserted in
full onto an empty table. -/
theorem C8_witness :
    insert_data (some []) (some batch101) =
      (InsertResponse.created batch101.length, some ([] ++ batch101.map itemToRecord)) :=
  (C8_ingest_behaviour (some []) batch101 []).2.2 (by decide) (by decide)

/-- Claim C6 amended: the `GET` data endpoint applies NO cap to the
rows returned: for every store contents and every accepted request,
the `data` field holds one row for each stored row matching the built
predicate — the count equals the number of matching rows, nothing is
truncated and no error is raised, however many rows match. -/
theorem C6_no_truncation (table : List Record) (args : Args) (clauses : List Clause)
    (hok : buildFilters args = BuildResult.ok clauses) :
    get_dashboard_data (some table) args =
      DataResponse.ok ((runQuery clauses table).map Record.toDataRow) (facetsOf table) ∧
    ((runQuery clauses table).map Record.toDataRow).length =
      table.countP (fun r => clauses.all fun c => c.matches r) := by
  constructor
  · simp [get_dashboard_data, hok]
  · simp [runQuery, List.countP_eq_length_filter]

/-- Witness for C6: an unfiltered request over a one-row table returns
exactly that row. -/
theorem C6_witness :
    get_dashboard_data (some [recY]) noArgs =
      DataResponse.ok ((runQuery [] [recY]).map Record.toDataRow) (facetsOf [recY]) ∧
    ((runQuery ([] : List Clause) [recY]).map Record.toDataRow).length =
      ([recY] : List Record).countP (fun r => ([] : List Clause).all fun c => c.matches r) :=
  C6_no_truncation [recY] noArgs [] rfl

/-- Facet membership: a string is in a facet list exactly when it is
non-empty and some stored row carries it (non-null) in that column. -/
theorem mem_facetValues (f : Record → Option String) (table : List Record) (v : String) :
    v ∈ facetValues f table ↔ v ≠ "" ∧ ∃ r ∈ table, f r = some v := by
  unfold facetValues
  rw [(List.perm_insertionSort _ _).mem_iff, List.mem_dedup, List.mem_filter,
    List.mem_filterMap]
  constructor
  · rintro ⟨⟨r, hr, hfr⟩, hv⟩
    exact ⟨by simpa using hv, r, hr, hfr⟩
  · rintro ⟨hv, r, hr, hfr⟩
    exact ⟨⟨r, hr, hfr⟩, by simpa using hv⟩

/-- Facet lists carry no duplicates (`SELECT DISTINCT`). -/
theorem facetValues_nodup (f : Record → Option String) (table : List Record) :
    (facetValues f table).Nodup :=
  ((List.perm_insertionSort _ _).nodup_iff).2 (List.nodup_dedup _)

/-- Claim C7: for each of the seven categorical facet columns, the
facet list of the response is the distinct set of values present
across the entire table — identical for any two accepted requests on
the same table (hence unaffected by the request's filters),
duplicate-free, and a value appears exactly when it is non-empty and
some row carries it non-null, so no null or empty-string entry ever
appears. -/
theorem C7_facets_unfiltered (table : List Record) (args args' : Args)
    (rows rows' : List DataRow) (fd fd' : FacetData)
    (h : get_dashboard_data (some table) args = DataResponse.ok rows fd)
    (h' : get_dashboard_data (some table) args' = DataResponse.ok rows' fd') :
    fd' = fd ∧ fd = facetsOf table ∧
    (∀ v, v ∈ fd.end_years ↔ v ≠ "" ∧ ∃ r ∈ table, r.end_year = some v) ∧
    (∀ v, v ∈ fd.topics ↔ v ≠ "" ∧ ∃ r ∈ table, r.topic = some v) ∧
    (∀ v, v ∈ fd.sectors ↔ v ≠ "" ∧ ∃ r ∈ table, r.sector = some v) ∧
    (∀ v, v ∈ fd.regions ↔ v ≠ "" ∧ ∃ r ∈ table, r.region = some v) ∧
    (∀ v, v ∈ fd.pestles ↔ v ≠ "" ∧ ∃ r ∈ table, r.pestle = some v) ∧
    (∀ v, v ∈ fd.sources ↔ v ≠ "" ∧ ∃ r ∈ table, r.source = some v) ∧
    (∀ v, v ∈ fd.countries ↔ v ≠ "" ∧ ∃ r ∈ table, r.country = some v) ∧
    fd.end_years.Nodup ∧ fd.topics.Nodup ∧ fd.sectors.Nodup ∧ fd.regions.Nodup ∧
    fd.pestles.Nodup ∧ fd.sources.Nodup ∧ fd.countries.Nodup := by
  have hfd : fd = facetsOf table := by
    simp only [get_dashboard_data] at h
    split at h
    · exact absurd h (by simp)
    · cases h
      rfl
  have hfd' : fd' = facetsOf table := by
    simp only [get_dashboard_data] at h'
    split at h'
    · exact absurd h' (by simp)
    · cases h'
      rfl
  subst hfd
  exact ⟨hfd', rfl,
    fun v => mem_facetValues Record.end_year table v,
    fun v => mem_facetValues Record.topic table v,
    fun v => mem_facetValues Record.sector table v,
    fun v => mem_facetValues Record.region table v,
    fun v => mem_facetValues Record.pestle table v,
    fun v => mem_facetValues Record.source table v,
    fun v => mem_facetValues Record.country table v,
    facetValues_nodup Record.end_year table,
    facetValues_nodup Record.topic table,
    facetValues_nodup Record.sector table,
    facetValues_nodup Record.region table,
    facetValues_nodup Record.pestle table,
    facetValues_nodup Record.source table,
    facetValues_nodup Record.country table⟩

/-- Witness for C7: on the one-row table, membership of `Y` in the
topics facet is exactly "some row carries topic `Y`". -/
theorem C7_witness :
    "Y" ∈ (facetsOf [recY]).topics ↔ ("Y" ≠ "" ∧ ∃ r ∈ [recY], r.topic = some "Y") :=
  ((C7_facets_unfiltered [recY] noArgs noArgs ([recY].map Record.toDataRow)
      ([recY].map Record.toDataRow) (facetsOf [recY]) (facetsOf [recY]) rfl rfl).2.2.2.1) "Y"

/-- Pointwise semantic equality of two clauses: they hold of exactly
the same rows. -/
def clauseEquiv (c c' : Clause) : Prop :=
  ∀ r : Record, c.matches r = c'.matches r

/-- Reflexivity of clause equivalence. -/
theorem clauseEquiv_refl (c : Clause) : clauseEquiv c c := fun _ => rfl

/-- Membership clauses on the same column whose value lists have the
same members select the same rows: only the value SET matters. -/
theorem anyOf_equiv (col : String) (L L' : List String) (h : ∀ v, v ∈ L ↔ v ∈ L') :
    clauseEquiv (.anyOf col L) (.anyOf col L') := by
  intro r
  cases hcv : colVal r col with
  | none => simp [Clause.matches, hcv]
  | some v => simp [Clause.matches, hcv, decide_eq_decide, h v]

/-- Pointwise semantically equal clause lists filter the same rows. -/
theorem runQuery_congr (cs cs' : List Clause) (h : List.Forall₂ clauseEquiv cs cs')
    (table : List Record) : runQuery cs table = runQuery cs' table := by
  unfold runQuery
  refine List.filter_congr ?_
  intro r hr
  induction h with
  | nil => rfl
  | cons hcc htail ih => simp [List.all_cons, hcc r, ih]

/-- Lifting a pointwise option-level relation through `filterMap`. -/
theorem filterMap_forall₂ {α : Type} (f g : α → Option Clause) (l : List α) :
    (∀ a ∈ l, (f a = none ∧ g a = none) ∨
      ∃ c c', f a = some c ∧ g a = some c' ∧ clauseEquiv c c') →
    List.Forall₂ clauseEquiv (l.filterMap f) (l.filterMap g) := by
  induction l with
  | nil =>
    intro _
    exact List.Forall₂.nil
  | cons a t ih =>
    intro h
    have ht := ih fun b hb => h b (List.mem_cons_of_mem a hb)
    rcases h a (List.mem_cons_self a t) with ⟨hf, hg⟩ | ⟨c, c', hf, hg, hcc⟩
    · simpa [List.filterMap_cons, hf, hg] using ht
    · simp only [List.filterMap_cons, hf, hg]
      exact List.Forall₂.cons hcc ht

/-- Under equal gates and equal non-empty value sets, the two
categorical clause lists are pointwise semantically equal. -/
theorem catClauses_equiv (args args' : Args)
    (hgate : ∀ p ∈ catKeys, gateOpen (args'.getlist p.1) = gateOpen (args.getlist p.1))
    (hset : ∀ p ∈ catKeys,
      List.Perm ((args'.getlist p.1).filter (fun v => v ≠ "")).dedup
        ((args.getlist p.1).filter (fun v => v ≠ "")).dedup) :
    List.Forall₂ clauseEquiv (catClauses args') (catClauses args) := by
  unfold catClauses
  refine filterMap_forall₂ _ _ catKeys ?_
  intro p hp
  dsimp only
  unfold catClause
  by_cases hg : gateOpen (args.getlist p.1) = true
  · have hg' : gateOpen (args'.getlist p.1) = true := by rw [hgate p hp, hg]
    rw [if_pos hg, if_pos hg']
    refine Or.inr ⟨_, _, rfl, rfl, anyOf_equiv _ _ _ ?_⟩
    intro v
    have hm := (hset p hp).mem_iff (a := v)
    simpa [List.mem_dedup] using hm
  · have hg' : ¬ gateOpen (args'.getlist p.1) = true := by rw [hgate p hp]; exact hg
    rw [if_neg hg, if_neg hg']
    exact Or.inl ⟨rfl, rfl⟩

/-- The intensity processing depends only on that key's parameter. -/
theorem intensityArg_ext (args args' : Args) (key : String)
    (h : args'.getlist key = args.getlist key) :
    intensityArg args' key = intensityArg args key := by
  unfold intensityArg Args.get
  rw [h]

/-- Claim C3 amended: for every accepted request and every categorical
column whose parameter list opens the gate (first value non-empty),
the built query carries exactly one membership clause for that column,
whose single bound parameter is the list of supplied non-empty values,
and that clause holds of a row iff the row's column value is non-null
and a member of that value set; moreover two accepted requests with
the same gate outcomes, the same non-empty value set per column, and
identical intensity parameters receive the same response from every
table — order and duplicates inside the value lists do not change the
selected rows. -/
theorem C3_set_membership (args args' : Args) (table : List Record)
    (clauses : List Clause) (hok : buildFilters args = BuildResult.ok clauses)
    (hgate : ∀ p ∈ catKeys, gateOpen (args'.getlist p.1) = gateOpen (args.getlist p.1))
    (hset : ∀ p ∈ catKeys,
      List.Perm ((args'.getlist p.1).filter (fun v => v ≠ "")).dedup
        ((args.getlist p.1).filter (fun v => v ≠ "")).dedup)
    (hmin : args'.getlist "intensity_min" = args.getlist "intensity_min")
    (hmax : args'.getlist "intensity_max" = args.getlist "intensity_max") :
    (∀ p ∈ catKeys, gateOpen (args.getlist p.1) = true →
      (∃! vals, Clause.anyOf p.2 vals ∈ clauses) ∧
      Clause.anyOf p.2 ((args.getlist p.1).filter (fun v => v ≠ "")) ∈ clauses ∧
      (∀ r : Record,
        (Clause.anyOf p.2 ((args.getlist p.1).filter (fun v => v ≠ ""))).matches r =
          decide (∃ w, colVal r p.2 = some w ∧
            w ∈ (args.getlist p.1).filter (fun v => v ≠ "")))) ∧
    get_dashboard_data (some table) args' = get_dashboard_data (some table) args := by
  rcases buildFilters_ok args clauses hok with ⟨mn, mx, hmn, hmx, hcl⟩
  constructor
  · intro p hp hg
    have hcan : Clause.anyOf p.2 ((args.getlist p.1).filter (fun v => v ≠ "")) ∈ clauses := by
      rw [hcl]
      exact List.mem_append.2 (Or.inl (List.mem_append.2 (Or.inl
        ((mem_catClauses args _).2 ⟨p, hp, hg, rfl⟩))))
    have huniq : ∀ vals, Clause.anyOf p.2 vals ∈ clauses →
        vals = (args.getlist p.1).filter (fun v => v ≠ "") := by
      intro vals hv
      rw [hcl] at hv
      rcases List.mem_append.1 hv with hv | hv
      · rcases List.mem_append.1 hv with hv | hv
        · rcases (mem_catClauses args _).1 hv with ⟨q, hq, hgq, heq⟩
          injection heq with h1 h2
          have hpq : q = p := catKeys_snd_inj q hq p hp h1.symm
          rw [hpq] at h2
          exact h2
        · cases mn <;> simp at hv
      · cases mx <;> simp at hv
    refine ⟨⟨(args.getlist p.1).filter (fun v => v ≠ ""), hcan, fun y hy => huniq y hy⟩,
      hcan, ?_⟩
    intro r
    cases hcv : colVal r p.2 with
    | none => simp [Clause.matches, hcv]
    | some w => simp [Clause.matches, hcv]
  · have hAll : List.Forall₂ clauseEquiv (catClauses args') (catClauses args) :=
      catClauses_equiv args args' hgate hset
    have hbf' : buildFilters args' = BuildResult.ok
        (catClauses args' ++ (mn.map Clause.geInt).toList ++ (mx.map Clause.leInt).toList) := by
      unfold buildFilters
      rw [intensityArg_ext args args' "intensity_min" hmin, hmn,
        intensityArg_ext args args' "intensity_max" hmax, hmx]
    have hF : List.Forall₂ clauseEquiv
        (catClauses args' ++ (mn.map Clause.geInt).toList ++ (mx.map Clause.leInt).toList)
        (catClauses args ++ (mn.map Clause.geInt).toList ++ (mx.map Clause.leInt).toList) := by
      refine List.rel_append (List.rel_append hAll ?_) ?_
      · exact List.forall₂_same.2 fun c _ => clauseEquiv_refl c
      · exact List.forall₂_same.2 fun c _ => clauseEquiv_refl c
    have hrq := runQuery_congr _ _ hF table
    have e1 : get_dashboard_data (some table) args' = DataResponse.ok
        ((runQuery (catClauses args' ++ (mn.map Clause.geInt).toList
          ++ (mx.map Clause.leInt).toList) table).map Record.toDataRow) (facetsOf table) := by
      simp [get_dashboard_data, hbf']
    have e2 : get_dashboard_data (some table) args = DataResponse.ok
        ((runQuery clauses table).map Record.toDataRow) (facetsOf table) := by
      simp [get_dashboard_data, hok]
    rw [e1, e2, hcl, hrq]

/-- Witness for C3: the requests `?topics=X&topics=&topics=Y` and
`?topics=Y&topics=X&topics=X` carry the same non-empty topic set in
different order with duplicates, and receive the same response. -/
theorem C3_witness :
    get_dashboard_data (some [recY]) argsYXX = get_dashboard_data (some [recY]) argsXY :=
  (C3_set_membership argsXY argsYXX [recY] [Clause.anyOf "topic" ["X", "Y"]]
    (by decide) (by decide) (by decide) rfl rfl).2

/-- Witness for C9: the no-parameter request against the unreachable
store gets the 500 response. -/
theorem C9_witness :
    get_dashboard_data none noArgs = DataResponse.serverError "Database connection failed" :=
  C9_unreachable_is_500 noArgs
